import Mathlib

/-!
Verification of the cmi5-playground progress-evaluation engine and FSRS
scheduler. Definitions are shallow embeddings of the TypeScript sources:
packages/cmi5-engine/src/engine.ts, packages/cmi5-core/src/types.ts and
constants.ts, the cmi5-fsrs-types utilities, and the FSRSService class.
Numeric values are modelled as rationals (all source arithmetic on these
code paths is exact on IEEE doubles for the magnitudes involved), except
the mastery-decay estimate, which uses real exponentials.
-/

namespace Cmi5

/-! ## Core data model (packages/cmi5-core/src/types.ts) -/

inductive LessonStatus
  | locked
  | available
  | inProgress
  | completed
  | passed
deriving DecidableEq, Repr

inductive PrerequisitePolicy
  | completion
  | moveOn
deriving DecidableEq, Repr

inductive MissingPrerequisiteBehavior
  | ignore
  | lock
deriving DecidableEq, Repr

inductive MoveOn
  | Passed
  | Completed
  | CompletedAndPassed
  | NotApplicable
deriving DecidableEq, Repr

inductive LaunchMode
  | Normal
  | Browse
  | Review
deriving DecidableEq, Repr

structure CMI5LaunchParameters where
  endpoint : String
  auth : String
  actor : String
  registration : Option String
  activityId : Option String
  fetch : Option String
deriving DecidableEq, Repr

structure CMI5Objective where
  id : String
  description : Option String
  masteryScore : Option ℚ
  isPrimary : Option Bool
  nodeId : Option String
  kubitId : Option String
deriving DecidableEq, Repr

structure CMI5CompletionCriteria where
  masteryScore : Option ℚ
  masteryPercentage : Option ℚ
  minMasteredCount : Option ℚ
  requireAllContent : Option Bool
  requireAllExercises : Option Bool
deriving DecidableEq, Repr

structure CMI5AssignableUnit where
  id : String
  title : String
  launchUrl : String
  launchParameters : Option CMI5LaunchParameters
  masteryScore : Option ℚ
  moveOn : Option MoveOn
  objectives : List CMI5Objective
  prerequisites : Option (List String)
  completionCriteria : Option CMI5CompletionCriteria
  order : Option ℚ
deriving DecidableEq, Repr

structure CMI5Course where
  id : String
  title : String
  description : Option String
  assignableUnits : List CMI5AssignableUnit
deriving DecidableEq, Repr

structure CMI5ObjectiveState where
  objectiveId : String
  nodeId : Option String
  kubitId : Option String
  mastery : ℚ
  lastAttempted : String
  attempts : ℕ
  satisfied : Bool
deriving DecidableEq, Repr

structure CMI5ProgressRecord where
  currentLesson : Option String
  completedLessons : List String
  timeSpent : ℚ
deriving DecidableEq, Repr

structure CMI5State where
  registration : String
  launchMode : LaunchMode
  objectiveStates : List (String × CMI5ObjectiveState)
  progress : CMI5ProgressRecord
  completed : Bool
  completedAt : Option String
deriving DecidableEq, Repr

/-- DEFAULT_MASTERY_SCORE from packages/cmi5-core/src/constants.ts. -/
def DEFAULT_MASTERY_SCORE : ℚ := 0.8

/-! JavaScript Map helpers. A Map is modelled as an association list with
unique keys; Map.get returns the value stored at the key, Map.set replaces
the value in place (keeping the original insertion position) or appends. -/

def mapGet {α : Type} (m : List (String × α)) (k : String) : Option α :=
  (m.find? (fun p => p.1 == k)).map (fun p => p.2)

def mapSet {α : Type} (m : List (String × α)) (k : String) (v : α) : List (String × α) :=
  if m.any (fun p => p.1 == k) then
    m.map (fun p => if p.1 == k then (k, v) else p)
  else
    m ++ [(k, v)]

/-! ## FSRS data model (cmi5-fsrs-types and the FSRSService class) -/

inductive FSRSCardState
  | new
  | learning
  | review
  | relearning
deriving DecidableEq, Repr

structure FSRSState where
  stability : ℚ
  difficulty : ℚ
  elapsedDays : ℤ
  scheduledDays : ℤ
  reps : ℕ
  lapses : ℕ
  state : FSRSCardState
deriving DecidableEq, Repr

/-- FSRS rating for a review: Again=1, Hard=2, Good=3, Easy=4. -/
inductive FSRSRating
  | again
  | hard
  | good
  | easy
deriving DecidableEq, Repr

def FSRSRating.toGrade : FSRSRating → ℕ
  | .again => 1
  | .hard => 2
  | .good => 3
  | .easy => 4

/-- Elapsed-days computation at the top of FSRSService.applyFSRS. The prior
state stores no last-review timestamp: when reps is positive the last review
time is rederived as now minus the prior scheduled interval, otherwise it is
now itself. `now` is a clock reading in milliseconds.
JavaScript Math.floor on an exact quotient is the rational floor. -/
def elapsedDaysOf (now : ℚ) (fsrsState : FSRSState) : ℤ :=
  let lastReviewTime : ℚ :=
    if fsrsState.reps > 0 then
      now - (fsrsState.scheduledDays : ℚ) * (24 * 60 * 60 * 1000)
    else
      now
  ⌊(now - lastReviewTime) / (24 * 60 * 60 * 1000)⌋

/-- FSRS update rule, translated from FSRSService.applyFSRS.
JavaScript Math.round is round-half-up, which is the Mathlib round. -/
def applyFSRS (now : ℚ) (fsrsState : FSRSState) (rating : FSRSRating) : FSRSState :=
  let elapsedDays := elapsedDaysOf now fsrsState
  let updated : FSRSState :=
    if rating = .again then
      { fsrsState with
        elapsedDays := elapsedDays
        lapses := fsrsState.lapses + 1
        difficulty := min 10 (fsrsState.difficulty + 0.5)
        stability := max 0.1 (fsrsState.stability * 0.5)
        state := .relearning }
    else
      let g : ℚ := rating.toGrade
      let stabilityMultiplier : ℚ := 1 + (g - 2) * 0.5
      let stability := max 0.1 (fsrsState.stability * stabilityMultiplier)
      let difficulty := max 1 (min 10 (fsrsState.difficulty - 0.1 * (g - 2)))
      let state :=
        if stability < 1 then FSRSCardState.learning
        else if fsrsState.state = .new ∨ fsrsState.state = .learning then FSRSCardState.review
        else fsrsState.state
      { fsrsState with
        elapsedDays := elapsedDays
        reps := fsrsState.reps + 1
        stability := stability
        difficulty := difficulty
        state := state }
  { updated with scheduledDays := max 1 (round updated.stability) }

inductive MilestoneType
  | firstReview
  | masteryThreshold
  | stateTransition
  | periodic
deriving DecidableEq, Repr

/-- Milestone classification, translated from FSRSService.detectMilestone.
The first two arguments are the masteryThreshold and
periodicMilestoneInterval fields of the service (defaults 0.8 and 10).
In JavaScript, reviewCount % 0 is NaN and NaN === 0 is false, hence the
explicit guard on a zero interval. -/
def detectMilestone (masteryThreshold : ℚ) (periodicMilestoneInterval : ℕ)
    (isFirstReview : Bool) (previousMastery newMastery : ℚ)
    (previousState newState : FSRSCardState) (reviewCount : ℕ) : Option MilestoneType :=
  if isFirstReview then
    some .firstReview
  else if (previousMastery < masteryThreshold ∧ newMastery ≥ masteryThreshold) ∨
      (previousMastery < 1 ∧ newMastery ≥ 1) then
    some .masteryThreshold
  else if previousState ≠ newState ∧ (newState = .review ∨ newState = .learning) then
    some .stateTransition
  else if periodicMilestoneInterval ≠ 0 ∧ reviewCount % periodicMilestoneInterval = 0 then
    some .periodic
  else
    none

/-! ## Learning engine (packages/cmi5-engine/src/engine.ts) -/

structure LessonSignal where
  contentCompleted : Option Bool
  exercisesCompleted : Option Bool
deriving DecidableEq, Repr

structure CMI5LearningEngineOptions where
  defaultMasteryScore : Option ℚ
  prerequisitePolicy : Option PrerequisitePolicy
  missingPrerequisiteBehavior : Option MissingPrerequisiteBehavior
deriving DecidableEq, Repr

structure CMI5LearningEngineProgress where
  cmi5State : Option CMI5State
  lessonSignals : Option (List (String × LessonSignal))
deriving DecidableEq, Repr

inductive ObjectiveSource
  | cmi5
  | none
deriving DecidableEq, Repr

structure ObjectiveProgress where
  id : String
  nodeId : Option String
  kubitId : Option String
  mastery : ℚ
  masteryScore : ℚ
  satisfied : Bool
  attempts : ℕ
  source : ObjectiveSource
deriving DecidableEq, Repr

structure PrerequisiteFacts where
  ids : List String
  unmetIds : List String
  missingIds : List String
  met : Bool
deriving DecidableEq, Repr

structure ObjectiveFacts where
  total : ℕ
  mastered : ℕ
  masteryAverage : ℚ
  details : List ObjectiveProgress
deriving DecidableEq, Repr

structure CompletionFacts where
  isComplete : Bool
  criteria : Option CMI5CompletionCriteria
  fromState : Bool
  requiresContent : Bool
  requiresExercises : Bool
deriving DecidableEq, Repr

structure PassFacts where
  isPassed : Bool
  masteryScore : Option ℚ
  averageMastery : ℚ
deriving DecidableEq, Repr

structure MoveOnFacts where
  criteria : MoveOn
  isSatisfied : Bool
deriving DecidableEq, Repr

structure AUEvaluation where
  auId : String
  title : String
  order : ℚ
  status : LessonStatus
  started : Bool
  prerequisites : PrerequisiteFacts
  objectives : ObjectiveFacts
  completion : CompletionFacts
  pass : PassFacts
  moveOn : MoveOnFacts
deriving DecidableEq, Repr

structure CourseFacts where
  id : String
  title : String
  status : LessonStatus
deriving DecidableEq, Repr

structure CMI5LearningEngineSnapshot where
  aus : List (String × AUEvaluation)
  course : CourseFacts
deriving DecidableEq, Repr

/-- Engine options after the defaulting performed in the engine constructor. -/
structure ResolvedOptions where
  defaultMasteryScore : ℚ
  prerequisitePolicy : PrerequisitePolicy
  missingPrerequisiteBehavior : MissingPrerequisiteBehavior
deriving DecidableEq, Repr

def resolveOptions (options : CMI5LearningEngineOptions) : ResolvedOptions :=
  { defaultMasteryScore := options.defaultMasteryScore.getD DEFAULT_MASTERY_SCORE
    prerequisitePolicy := options.prerequisitePolicy.getD .completion
    missingPrerequisiteBehavior := options.missingPrerequisiteBehavior.getD .ignore }

structure AUDescriptor where
  id : String
  title : String
  order : ℚ
  prerequisites : List String
  objectives : List CMI5Objective
  masteryScore : Option ℚ
  moveOn : Option MoveOn
  completionCriteria : Option CMI5CompletionCriteria
  au : CMI5AssignableUnit
deriving DecidableEq, Repr

structure CourseIndex where
  courseId : String
  courseTitle : String
  aus : List (String × AUDescriptor)
deriving DecidableEq, Repr

def buildCourseIndex (course : CMI5Course) : CourseIndex :=
  { courseId := course.id
    courseTitle := course.title
    aus := course.assignableUnits.foldl (fun m au =>
      mapSet m au.id
        { id := au.id
          title := au.title
          order := au.order.getD 0
          prerequisites := au.prerequisites.getD []
          objectives := au.objectives
          masteryScore := au.masteryScore
          moveOn := au.moveOn
          completionCriteria := au.completionCriteria
          au := au }) [] }

/-- Lookup chain of resolveObjectiveState: exact objective id first, then
nodeId when present, then kubitId when present; first hit wins. The
masteryScore parameter is accepted but unused, as in the source. -/
def resolveObjectiveState (objective : CMI5Objective)
    (objectiveStates : Option (List (String × CMI5ObjectiveState)))
    (masteryScore : ℚ) : Option CMI5ObjectiveState :=
  match objectiveStates with
  | none => none
  | some states =>
    match mapGet states objective.id with
    | some directState => some directState
    | none =>
      match objective.nodeId.bind (fun nodeId => mapGet states nodeId) with
      | some nodeState => some nodeState
      | none => objective.kubitId.bind (fun kubitId => mapGet states kubitId)

structure StatusCounts where
  locked : ℕ
  available : ℕ
  inProgress : ℕ
  completed : ℕ
  passed : ℕ
deriving DecidableEq, Repr

def countStatuses (statuses : List LessonStatus) : StatusCounts :=
  { locked := statuses.count .locked
    available := statuses.count .available
    inProgress := statuses.count .inProgress
    completed := statuses.count .completed
    passed := statuses.count .passed }

def aggregateStatus (statuses : List LessonStatus) : LessonStatus :=
  if statuses.length = 0 then
    .locked
  else
    let counts := countStatuses statuses
    if counts.locked = statuses.length then .locked
    else if counts.passed = statuses.length then .passed
    else if counts.completed + counts.passed = statuses.length then .completed
    else if counts.inProgress > 0 ∨
        (counts.completed + counts.passed > 0 ∧ (counts.locked > 0 ∨ counts.available > 0)) then
      .inProgress
    else if counts.available > 0 then .available
    else .locked

structure CompletionCheckResult where
  isComplete : Bool
  requiresContent : Bool
  requiresExercises : Bool
deriving DecidableEq, Repr

/-- Check list built by evaluateCompletionCriteria, in push order. A check
for masteryPercentage is only constructed when the objective total is
positive; content and exercise checks read the lesson signal with the
JavaScript Boolean coercion (undefined counts as false). -/
def completionChecks (criteria : Option CMI5CompletionCriteria)
    (objectiveMasteryAverage : ℚ) (objectiveMasteredCount objectiveTotal : ℕ)
    (lessonSignals : Option LessonSignal) : List Bool :=
  (match criteria.bind (fun c => c.masteryScore) with
   | some ms => [decide (objectiveMasteryAverage ≥ ms)]
   | none => []) ++
  (match criteria.bind (fun c => c.masteryPercentage) with
   | some mp =>
     if objectiveTotal > 0 then
       [decide ((objectiveMasteredCount : ℚ) / (objectiveTotal : ℚ) ≥ mp)]
     else []
   | none => []) ++
  (match criteria.bind (fun c => c.minMasteredCount) with
   | some mmc => [decide ((objectiveMasteredCount : ℚ) ≥ mmc)]
   | none => []) ++
  (if (criteria.bind (fun c => c.requireAllContent)).getD false then
    [(lessonSignals.bind (fun s => s.contentCompleted)).getD false]
   else []) ++
  (if (criteria.bind (fun c => c.requireAllExercises)).getD false then
    [(lessonSignals.bind (fun s => s.exercisesCompleted)).getD false]
   else [])

def evaluateCompletionCriteria (criteria : Option CMI5CompletionCriteria)
    (objectiveMasteryAverage : ℚ) (objectiveMasteredCount objectiveTotal : ℕ)
    (lessonSignals : Option LessonSignal) (defaultMasteryScore : ℚ) : CompletionCheckResult :=
  let requiresContent := (criteria.bind (fun c => c.requireAllContent)).getD false
  let requiresExercises := (criteria.bind (fun c => c.requireAllExercises)).getD false
  let checks := completionChecks criteria objectiveMasteryAverage
      objectiveMasteredCount objectiveTotal lessonSignals
  if checks.length = 0 then
    if objectiveTotal > 0 then
      { isComplete := objectiveMasteredCount == objectiveTotal
        requiresContent := requiresContent
        requiresExercises := requiresExercises }
    else
      { isComplete := (lessonSignals.bind (fun s => s.contentCompleted)).getD false ||
          (lessonSignals.bind (fun s => s.exercisesCompleted)).getD false
        requiresContent := requiresContent
        requiresExercises := requiresExercises }
  else
    { isComplete := checks.all id
      requiresContent := requiresContent
      requiresExercises := requiresExercises }

/-- Inputs of evaluate that pass 1 reads, extracted from the progress
argument exactly as at the top of CMI5LearningEngine.evaluate. -/
structure EvalContext where
  options : ResolvedOptions
  objectiveStates : Option (List (String × CMI5ObjectiveState))
  completedAUs : List String
  currentAU : Option String
  lessonSignals : List (String × LessonSignal)
deriving DecidableEq, Repr

def completedLessonsOf (progress : CMI5LearningEngineProgress) : List String :=
  (progress.cmi5State.map (fun s => s.progress.completedLessons)).getD []

def buildContext (options : ResolvedOptions) (progress : CMI5LearningEngineProgress) : EvalContext :=
  { options := options
    objectiveStates := progress.cmi5State.map (fun s => s.objectiveStates)
    completedAUs := completedLessonsOf progress
    currentAU := progress.cmi5State.bind (fun s => s.progress.currentLesson)
    lessonSignals := progress.lessonSignals.getD [] }

/-- Per-objective record built inside pass 1 of evaluate: mastery-score
precedence is objective override, then unit override, then the configured
default; the resolved state supplies mastery, satisfied and attempts, with
zero-state fallbacks when no record matches. -/
def objectiveProgressOf (ctx : EvalContext) (auDescriptor : AUDescriptor)
    (objective : CMI5Objective) : ObjectiveProgress :=
  let masteryScore :=
    objective.masteryScore.getD (auDescriptor.masteryScore.getD ctx.options.defaultMasteryScore)
  let state := resolveObjectiveState objective ctx.objectiveStates masteryScore
  { id := objective.id
    nodeId := objective.nodeId
    kubitId := objective.kubitId
    mastery := (state.map (fun s => s.mastery)).getD 0
    masteryScore := masteryScore
    satisfied := (state.map (fun s => s.satisfied)).getD
      (decide ((state.map (fun s => s.mastery)).getD 0 ≥ masteryScore))
    attempts := (state.map (fun s => s.attempts)).getD 0
    source := match state with
      | some _ => ObjectiveSource.cmi5
      | none => ObjectiveSource.none }

/-- Pass 1 of evaluate: per-unit facts computed in isolation. The status
field is a placeholder overwritten in pass 2, and the prerequisite facts
are placeholders as well. -/
def evalAUPass1 (ctx : EvalContext) (auDescriptor : AUDescriptor) : AUEvaluation :=
  let objectives := auDescriptor.objectives.map (objectiveProgressOf ctx auDescriptor)
  let objectiveTotal := objectives.length
  let objectiveMasteredCount := (objectives.filter (fun o => o.satisfied)).length
  let masteryAverage : ℚ :=
    if objectiveTotal > 0 then
      (objectives.map (fun o => o.mastery)).sum / (objectiveTotal : ℚ)
    else 0
  let completionCriteria := auDescriptor.completionCriteria
  let auSignal := mapGet ctx.lessonSignals auDescriptor.id
  let completionResult := evaluateCompletionCriteria completionCriteria masteryAverage
      objectiveMasteredCount objectiveTotal auSignal ctx.options.defaultMasteryScore
  let completedByState := ctx.completedAUs.contains auDescriptor.id
  let isComplete := if completedByState then true else completionResult.isComplete
  let passThreshold :=
    (completionCriteria.bind (fun c => c.masteryScore)).getD
      (auDescriptor.masteryScore.getD ctx.options.defaultMasteryScore)
  let isPassed : Bool :=
    if objectiveTotal > 0 then decide (masteryAverage ≥ passThreshold) else false
  let started := completedByState ||
    (ctx.currentAU == some auDescriptor.id) ||
    objectives.any (fun o => o.attempts > 0) ||
    ((auSignal.bind (fun s => s.contentCompleted)).getD false ||
      (auSignal.bind (fun s => s.exercisesCompleted)).getD false)
  let moveOnCriteria := auDescriptor.moveOn.getD .NotApplicable
  let moveOnSatisfied :=
    match moveOnCriteria with
    | .NotApplicable => true
    | .Completed => isComplete
    | .Passed => isPassed
    | .CompletedAndPassed => isComplete && isPassed
  { auId := auDescriptor.id
    title := auDescriptor.title
    order := auDescriptor.order
    status := .available
    started := started
    prerequisites := { ids := auDescriptor.prerequisites, unmetIds := [], missingIds := [], met := true }
    objectives := { total := objectiveTotal, mastered := objectiveMasteredCount,
                    masteryAverage := masteryAverage, details := objectives }
    completion := { isComplete := isComplete, criteria := completionCriteria,
                    fromState := completedByState,
                    requiresContent := completionResult.requiresContent,
                    requiresExercises := completionResult.requiresExercises }
    pass := { isPassed := isPassed, masteryScore := some passThreshold,
              averageMastery := masteryAverage }
    moveOn := { criteria := moveOnCriteria, isSatisfied := moveOnSatisfied } }

def prereqSatisfied (options : ResolvedOptions) (prereqEvaluation : AUEvaluation) : Bool :=
  match options.prerequisitePolicy with
  | .moveOn => prereqEvaluation.moveOn.isSatisfied
  | .completion => prereqEvaluation.completion.isComplete

/-- Unmet and missing prerequisite lists accumulated by the pass-2 loop, in
iteration order. A prerequisite with no pass-1 record is missing, and under
the lock behavior it also counts as unmet; a resolvable prerequisite is
unmet when unsatisfied under the configured policy. -/
def computePrereqLists (options : ResolvedOptions)
    (auEvaluations : List (String × AUEvaluation))
    (prereqIds : List String) : List String × List String :=
  prereqIds.foldl (fun acc prereqId =>
    match mapGet auEvaluations prereqId with
    | none =>
      ((if options.missingPrerequisiteBehavior = .lock then acc.1 ++ [prereqId] else acc.1),
        acc.2 ++ [prereqId])
    | some prereqEvaluation =>
      ((if prereqSatisfied options prereqEvaluation then acc.1 else acc.1 ++ [prereqId]),
        acc.2))
    ([], [])

/-- Status derivation of pass 2. -/
def deriveStatus (prerequisitesMet : Bool) (evaluation : AUEvaluation) : LessonStatus :=
  if !prerequisitesMet then
    .locked
  else
    match evaluation.moveOn.criteria with
    | .Passed =>
      if evaluation.pass.isPassed then .passed
      else if evaluation.started then .inProgress
      else .available
    | .CompletedAndPassed =>
      if evaluation.completion.isComplete && evaluation.pass.isPassed then .passed
      else if evaluation.started then .inProgress
      else .available
    | _ =>
      if evaluation.completion.isComplete then .completed
      else if evaluation.started then .inProgress
      else .available

def evalAUPass2 (options : ResolvedOptions) (auEvaluations : List (String × AUEvaluation))
    (auDescriptor : AUDescriptor) (evaluation : AUEvaluation) : AUEvaluation :=
  let lists := computePrereqLists options auEvaluations auDescriptor.prerequisites
  { evaluation with
    status := deriveStatus lists.1.isEmpty evaluation
    prerequisites := { ids := auDescriptor.prerequisites, unmetIds := lists.1,
                       missingIds := lists.2, met := lists.1.isEmpty } }

/-- Per-unit evaluations of evaluate, in course-index order. Map keys in the
index are unique, so the pass-2 lookup of the pass-1 evaluation of a
descriptor yields exactly the pass-1 evaluation of that descriptor; it is
inlined here. -/
def evaluateAUs (course : CMI5Course) (options : CMI5LearningEngineOptions)
    (progress : CMI5LearningEngineProgress) : List (String × AUEvaluation) :=
  let index := buildCourseIndex course
  let opts := resolveOptions options
  let ctx := buildContext opts progress
  let auEvaluations1 := index.aus.map (fun p => (p.1, evalAUPass1 ctx p.2))
  index.aus.map (fun p => (p.1, evalAUPass2 opts auEvaluations1 p.2 (evalAUPass1 ctx p.2)))

/-- Stable ascending sort by unit order, modelling the JavaScript stable
Array sort with comparator a.order - b.order. Stable sorts with respect to
a total preorder agree on every input, so structural insertion sort is an
exact model. -/
def sortByOrder (evaluations : List AUEvaluation) : List AUEvaluation :=
  evaluations.insertionSort (fun a b => a.order ≤ b.order)

/-- CMI5LearningEngine.evaluate for a flat course: the engine constructor
resolves options and builds the course index, and evaluate reads only the
course, the options and the progress argument. -/
def evaluate (course : CMI5Course) (options : CMI5LearningEngineOptions)
    (progress : CMI5LearningEngineProgress) : CMI5LearningEngineSnapshot :=
  let index := buildCourseIndex course
  let auEvaluations := evaluateAUs course options progress
  let auStatuses := (sortByOrder (auEvaluations.map (fun p => p.2))).map (fun e => e.status)
  { aus := auEvaluations
    course := { id := index.courseId, title := index.courseTitle,
                status := aggregateStatus auStatuses } }

/-- Status of a unit in a snapshot, keyed by unit id. -/
def statusOf (snapshot : CMI5LearningEngineSnapshot) (auId : String) : Option LessonStatus :=
  (mapGet snapshot.aus auId).map (fun e => e.status)

/-! ## Concrete three-unit chain scenario -/

/-- Objective with only an id, as in the scenario course. -/
def mkObjective (i : String) : CMI5Objective :=
  { id := i, description := none, masteryScore := none, isPrimary := none,
    nodeId := none, kubitId := none }

def chainCriteriaA : CMI5CompletionCriteria :=
  { masteryScore := none, masteryPercentage := some 1, minMasteredCount := none,
    requireAllContent := none, requireAllExercises := none }

def chainCriteriaB : CMI5CompletionCriteria :=
  { masteryScore := none, masteryPercentage := some 1, minMasteredCount := none,
    requireAllContent := some true, requireAllExercises := none }

def chainUnitA : CMI5AssignableUnit :=
  { id := "A", title := "Unit A", launchUrl := "", launchParameters := none,
    masteryScore := none, moveOn := some .CompletedAndPassed,
    objectives := [mkObjective "a1", mkObjective "a2"], prerequisites := none,
    completionCriteria := some chainCriteriaA, order := some 0 }

def chainUnitB : CMI5AssignableUnit :=
  { id := "B", title := "Unit B", launchUrl := "", launchParameters := none,
    masteryScore := none, moveOn := some .Completed,
    objectives := [mkObjective "b1"], prerequisites := some ["A"],
    completionCriteria := some chainCriteriaB, order := some 1 }

def chainUnitC : CMI5AssignableUnit :=
  { id := "C", title := "Unit C", launchUrl := "", launchParameters := none,
    masteryScore := none, moveOn := some .Completed,
    objectives := [mkObjective "c1"], prerequisites := some ["B"],
    completionCriteria := none, order := some 2 }

def chainCourse : CMI5Course :=
  { id := "course", title := "Course", description := none,
    assignableUnits := [chainUnitA, chainUnitB, chainUnitC] }

/-- Default engine options: nothing configured. -/
def defaultOptions : CMI5LearningEngineOptions :=
  { defaultMasteryScore := none, prerequisitePolicy := none,
    missingPrerequisiteBehavior := none }

/-- Empty progress snapshot. -/
def emptyProgress : CMI5LearningEngineProgress :=
  { cmi5State := none, lessonSignals := none }

/-- Objective record with mastery 0.9 and satisfied set. -/
def masteredRecord (i : String) : CMI5ObjectiveState :=
  { objectiveId := i, nodeId := none, kubitId := none, mastery := 9/10,
    lastAttempted := "2024-01-01T00:00:00Z", attempts := 1, satisfied := true }

def chainStateA : CMI5State :=
  { registration := "reg", launchMode := .Normal,
    objectiveStates := [("a1", masteredRecord "a1"), ("a2", masteredRecord "a2")],
    progress := { currentLesson := none, completedLessons := [], timeSpent := 0 },
    completed := false, completedAt := none }

/-- Progress after both objectives of unit A reach mastery 0.9, satisfied. -/
def chainProgressA : CMI5LearningEngineProgress :=
  { cmi5State := some chainStateA, lessonSignals := none }

/-- Course with no assignable units. -/
def emptyCourse : CMI5Course :=
  { id := "empty", title := "Empty", description := none, assignableUnits := [] }

/-- FSRS state before the concrete scheduler step of the spec: stability
2.5, difficulty 5, reps 3, lapses 0, review state, scheduledDays 3. -/
def reviewState : FSRSState :=
  { stability := 5/2, difficulty := 5, elapsedDays := 0, scheduledDays := 3,
    reps := 3, lapses := 0, state := .review }

/-! ## Learner state and mastery decay (cmi5-fsrs-types) -/

inductive ActivityType
  | recognition
  | production
  | listening
  | writing
  | speaking
  | reading
  | custom
deriving DecidableEq, Repr

structure ActivityMastery where
  attempts : ℕ
  correct : ℕ
  lastAttempt : ℝ
  avgResponseTime : ℝ

/-- LearnerState from cmi5-fsrs-types; timestamps are milliseconds since
the epoch, modelled as reals. The activityMastery object is a key-value
map with distinct keys. -/
structure LearnerState where
  itemId : String
  userId : String
  mastery : ℝ
  state : FSRSState
  activityMastery : List (ActivityType × ActivityMastery)
  firstSeen : ℝ
  lastReviewed : ℝ
  nextReview : ℝ

/-- Mastery decay estimate, translated from calculateMastery in
cmi5-fsrs-types. `now` models Date.now(). The overdue value models the
overdueRatio local of the source. -/
noncomputable def calculateMastery (now : ℝ) (learnerState : LearnerState) : ℝ :=
  let daysSinceReview : ℝ :=
    max 0 ((now - learnerState.lastReviewed) / (1000 * 60 * 60 * 24))
  let retention : ℝ :=
    if ((learnerState.state.stability : ℚ) : ℝ) > 0 then
      Real.exp (-daysSinceReview / ((learnerState.state.stability : ℚ) : ℝ) *
        Real.log (10 / 9))
    else 0
  let activitiesUsed := learnerState.activityMastery.length
  let activityBonus : ℝ := min ((activitiesUsed : ℝ) * 0.02) 0.1
  let overdue : ℝ :=
    if ((learnerState.state.scheduledDays : ℤ) : ℝ) > 0 then
      daysSinceReview / ((learnerState.state.scheduledDays : ℤ) : ℝ)
    else 0
  let recencyPenalty : ℝ := if overdue > 1 then min ((overdue - 1) * 0.1) 0.2 else 0
  max 0 (min 1 (retention + activityBonus - recencyPenalty))

/-- Learner state over the concrete review-state example, with no
activity mastery recorded. -/
def exampleLearner : LearnerState :=
  { itemId := "item", userId := "local", mastery := 0, state := reviewState,
    activityMastery := [], firstSeen := 0, lastReviewed := 0, nextReview := 0 }

/-! ## Witness inputs for the resolver and locking claims -/

/-- Objective whose mastery record is stored under its nodeId. -/
def c4Objective : CMI5Objective :=
  { id := "o1", description := none, masteryScore := none, isPrimary := none,
    nodeId := some "n1", kubitId := none }

def c4States : List (String × CMI5ObjectiveState) := [("n1", masteredRecord "n1")]

def c4CMI5State : CMI5State :=
  { registration := "reg", launchMode := .Normal, objectiveStates := c4States,
    progress := { currentLesson := none, completedLessons := [], timeSpent := 0 },
    completed := false, completedAt := none }

def c4Progress : CMI5LearningEngineProgress :=
  { cmi5State := some c4CMI5State, lessonSignals := none }

def c4Ctx : EvalContext := buildContext (resolveOptions defaultOptions) c4Progress

def c4Descriptor : AUDescriptor :=
  { id := "U", title := "Unit U", order := 0, prerequisites := [],
    objectives := [c4Objective], masteryScore := none, moveOn := none,
    completionCriteria := none, au := chainUnitA }

/-- Two-unit course where X depends on A and A is externally completed. -/
def gateUnitA : CMI5AssignableUnit :=
  { id := "A", title := "Gate A", launchUrl := "", launchParameters := none,
    masteryScore := none, moveOn := none, objectives := [], prerequisites := none,
    completionCriteria := none, order := some 0 }

def gateUnitX : CMI5AssignableUnit :=
  { id := "X", title := "Gate X", launchUrl := "", launchParameters := none,
    masteryScore := none, moveOn := none, objectives := [],
    prerequisites := some ["A"], completionCriteria := none, order := some 1 }

def gateCourse : CMI5Course :=
  { id := "gate", title := "Gate", description := none,
    assignableUnits := [gateUnitA, gateUnitX] }

def gateState : CMI5State :=
  { registration := "reg", launchMode := .Normal, objectiveStates := [],
    progress := { currentLesson := none, completedLessons := ["A"], timeSpent := 0 },
    completed := false, completedAt := none }

def gateProgress : CMI5LearningEngineProgress :=
  { cmi5State := some gateState, lessonSignals := none }

def gateEval : CMI5LearningEngineSnapshot :=
  evaluate gateCourse defaultOptions gateProgress

/-! ## Theorems -/

/-- Elapsed days rederive to the prior scheduled interval when reps is
positive and to zero otherwise. -/
theorem elapsedDaysOf_eq (now : ℚ) (s : FSRSState) :
    elapsedDaysOf now s = if 0 < s.reps then s.scheduledDays else 0 := by
  unfold elapsedDaysOf
  by_cases h : 0 < s.reps
  · simp only [h, gt_iff_lt, if_true]
    rw [show now - (now - (s.scheduledDays : ℚ) * (24 * 60 * 60 * 1000)) =
        (s.scheduledDays : ℚ) * (24 * 60 * 60 * 1000) by ring]
    rw [mul_div_cancel_right₀ _ (by norm_num : (24 * 60 * 60 * 1000 : ℚ) ≠ 0)]
    exact Int.floor_intCast _
  · simp [h]

/-- The elapsedDays field of the updated state is the rederived elapsed
time, for every rating. -/
theorem applyFSRS_elapsedDays (now : ℚ) (s : FSRSState) (r : FSRSRating) :
    (applyFSRS now s r).elapsedDays = elapsedDaysOf now s := by
  rcases r <;> simp [applyFSRS]

/-- Claim C5: the FSRS rating update. Rating again increments lapses,
keeps reps, adds 0.5 to difficulty capped at 10, halves stability floored
at 0.1, and moves to relearning; other ratings increment reps, multiply
stability by 1 + (grade - 2) * 0.5 floored at 0.1, clamp difficulty to
[1, 10] after subtracting 0.1 * (grade - 2), and move to learning when the
updated stability is below 1, else to review from new or learning, else
keep the state; in every case the new scheduledDays is
max(1, round(updated stability)). -/
theorem c5_applyFSRS_update (now : ℚ) (s : FSRSState) (r : FSRSRating) :
    ((applyFSRS now s r).scheduledDays = max 1 (round (applyFSRS now s r).stability)) ∧
    (r = .again →
      (applyFSRS now s r).lapses = s.lapses + 1 ∧
      (applyFSRS now s r).reps = s.reps ∧
      (applyFSRS now s r).difficulty = min 10 (s.difficulty + 0.5) ∧
      (applyFSRS now s r).stability = max 0.1 (s.stability * 0.5) ∧
      (applyFSRS now s r).state = FSRSCardState.relearning) ∧
    (r ≠ .again →
      (applyFSRS now s r).reps = s.reps + 1 ∧
      (applyFSRS now s r).lapses = s.lapses ∧
      (applyFSRS now s r).stability =
        max 0.1 (s.stability * (1 + ((r.toGrade : ℚ) - 2) * 0.5)) ∧
      (applyFSRS now s r).difficulty =
        max 1 (min 10 (s.difficulty - 0.1 * ((r.toGrade : ℚ) - 2))) ∧
      (applyFSRS now s r).state =
        (if (applyFSRS now s r).stability < 1 then FSRSCardState.learning
         else if s.state = .new ∨ s.state = .learning then FSRSCardState.review
         else s.state)) := by
  rcases r <;> simp [applyFSRS, FSRSRating.toGrade]

/-- Witness for C5: the again rating applied to the review-state example. -/
theorem c5_applyFSRS_update_witness :
    ((applyFSRS 0 reviewState .again).scheduledDays =
      max 1 (round (applyFSRS 0 reviewState .again).stability)) ∧
    ((applyFSRS 0 reviewState .again).lapses = reviewState.lapses + 1 ∧
      (applyFSRS 0 reviewState .again).reps = reviewState.reps ∧
      (applyFSRS 0 reviewState .again).difficulty = min 10 (reviewState.difficulty + 0.5) ∧
      (applyFSRS 0 reviewState .again).stability = max 0.1 (reviewState.stability * 0.5) ∧
      (applyFSRS 0 reviewState .again).state = FSRSCardState.relearning) := by
  have h := c5_applyFSRS_update 0 reviewState .again
  exact ⟨h.1, h.2.1 rfl⟩

/-- Claim C9: the updated elapsedDays is the floor of the rederived
interval quotient, which is the prior scheduledDays when the prior reps
count is positive and zero otherwise; the update depends on no stored
last-review timestamp, so it is independent of the clock reading. -/
theorem c9_elapsed_days_rederived (now now2 : ℚ) (s : FSRSState) (r : FSRSRating) :
    ((applyFSRS now s r).elapsedDays =
      if 0 < s.reps then
        ⌊(now - (now - (s.scheduledDays : ℚ) * 86400000)) / 86400000⌋
      else 0) ∧
    ((applyFSRS now s r).elapsedDays = if 0 < s.reps then s.scheduledDays else 0) ∧
    applyFSRS now s r = applyFSRS now2 s r := by
  refine ⟨?_, ?_, ?_⟩
  · rw [applyFSRS_elapsedDays, elapsedDaysOf_eq]
    by_cases h : 0 < s.reps
    · simp only [h, if_true]
      rw [show now - (now - (s.scheduledDays : ℚ) * 86400000) =
          (s.scheduledDays : ℚ) * 86400000 by ring]
      rw [mul_div_cancel_right₀ _ (by norm_num : (86400000 : ℚ) ≠ 0)]
      exact (Int.floor_intCast _).symm
    · simp [h]
  · rw [applyFSRS_elapsedDays, elapsedDaysOf_eq]
  · simp only [applyFSRS, elapsedDaysOf_eq]

/-- Claim C6: milestone classification resolves the rules in fixed
priority order: first-review always wins on the first recorded review,
then upward threshold or 1.0 crossing, then a lifecycle transition into
review or learning, then a periodic review-count multiple, else none. -/
theorem c6_milestone_priority (threshold : ℚ) (interval : ℕ) (isFirst : Bool)
    (prevM newM : ℚ) (prevS newS : FSRSCardState) (count : ℕ)
    (hi : 0 < interval) :
    (detectMilestone threshold interval isFirst prevM newM prevS newS count =
        some .firstReview ↔ isFirst = true) ∧
    (detectMilestone threshold interval isFirst prevM newM prevS newS count =
        some .masteryThreshold ↔ isFirst = false ∧
      ((prevM < threshold ∧ newM ≥ threshold) ∨ (prevM < 1 ∧ newM ≥ 1))) ∧
    (detectMilestone threshold interval isFirst prevM newM prevS newS count =
        some .stateTransition ↔ isFirst = false ∧
      ¬((prevM < threshold ∧ newM ≥ threshold) ∨ (prevM < 1 ∧ newM ≥ 1)) ∧
      (prevS ≠ newS ∧ (newS = .review ∨ newS = .learning))) ∧
    (detectMilestone threshold interval isFirst prevM newM prevS newS count =
        some .periodic ↔ isFirst = false ∧
      ¬((prevM < threshold ∧ newM ≥ threshold) ∨ (prevM < 1 ∧ newM ≥ 1)) ∧
      ¬(prevS ≠ newS ∧ (newS = .review ∨ newS = .learning)) ∧
      interval ∣ count) ∧
    (detectMilestone threshold interval isFirst prevM newM prevS newS count =
        none ↔ isFirst = false ∧
      ¬((prevM < threshold ∧ newM ≥ threshold) ∨ (prevM < 1 ∧ newM ≥ 1)) ∧
      ¬(prevS ≠ newS ∧ (newS = .review ∨ newS = .learning)) ∧
      ¬(interval ∣ count)) := by
  have hne : interval ≠ 0 := Nat.pos_iff_ne_zero.mp hi
  have hdvd : interval ∣ count ↔ count % interval = 0 :=
    Nat.dvd_iff_mod_eq_zero
  unfold detectMilestone
  rcases isFirst <;> split_ifs with h1 h2 h3 <;> simp_all

/-- Witness for C6: a first review that also crosses the threshold and
transitions the state still classifies as first-review. -/
theorem c6_milestone_priority_witness :
    detectMilestone (8/10) 10 true 0 1 FSRSCardState.new FSRSCardState.review 1 =
      some MilestoneType.firstReview :=
  ((c6_milestone_priority (8/10) 10 true 0 1 FSRSCardState.new FSRSCardState.review 1
    (by decide)).1).mpr rfl

/-- Claim C3: the constructed completion checks are exactly the optional
mastery-score, mastery-percentage (only with a positive objective total),
minimum-mastered-count, content-required and exercises-required checks, and
the verdict is their conjunction; with zero checks the verdict falls back
to masteredCount = total when the unit has objectives, else to either
lesson signal being set. -/
theorem c3_completion_verdict (criteria : Option CMI5CompletionCriteria)
    (avg : ℚ) (mc total : ℕ) (sig : Option LessonSignal) (dms : ℚ) :
    (completionChecks criteria avg mc total sig =
      (match criteria.bind (fun c => c.masteryScore) with
       | some ms => [decide (avg ≥ ms)]
       | none => []) ++
      (match criteria.bind (fun c => c.masteryPercentage) with
       | some mp =>
         if total > 0 then [decide ((mc : ℚ) / (total : ℚ) ≥ mp)] else []
       | none => []) ++
      (match criteria.bind (fun c => c.minMasteredCount) with
       | some mmc => [decide ((mc : ℚ) ≥ mmc)]
       | none => []) ++
      (if (criteria.bind (fun c => c.requireAllContent)).getD false then
        [(sig.bind (fun s => s.contentCompleted)).getD false]
       else []) ++
      (if (criteria.bind (fun c => c.requireAllExercises)).getD false then
        [(sig.bind (fun s => s.exercisesCompleted)).getD false]
       else [])) ∧
    ((evaluateCompletionCriteria criteria avg mc total sig dms).isComplete =
      if completionChecks criteria avg mc total sig = [] then
        if total > 0 then mc == total
        else
          (sig.bind (fun s => s.contentCompleted)).getD false ||
            (sig.bind (fun s => s.exercisesCompleted)).getD false
      else (completionChecks criteria avg mc total sig).all id) := by
  refine ⟨rfl, ?_⟩
  simp only [evaluateCompletionCriteria]
  rcases h : completionChecks criteria avg mc total sig with _ | ⟨b, bs⟩ <;>
    simp [h] <;> split_ifs <;> rfl

/-- Claim C8: for stability at least 0.1 the mastery estimate is the clamp
to [0, 1] of retention plus activity bonus minus recency penalty, with
retention the exponential forgetting curve, bonus 0.02 per distinct
activity type capped at 0.1, and penalty 0.1 per unit of overdue ratio
beyond 1 capped at 0.2; in particular the estimate always lies in [0, 1]. -/
theorem c8_mastery_clamped (now : ℝ) (learnerState : LearnerState)
    (h : (0.1 : ℝ) ≤ ((learnerState.state.stability : ℚ) : ℝ)) :
    (calculateMastery now learnerState =
      (let daysSinceReview : ℝ :=
        max 0 ((now - learnerState.lastReviewed) / (1000 * 60 * 60 * 24))
       let retention : ℝ :=
        Real.exp (-daysSinceReview / ((learnerState.state.stability : ℚ) : ℝ) *
          Real.log (10 / 9))
       let activityBonus : ℝ :=
        min ((learnerState.activityMastery.length : ℝ) * 0.02) 0.1
       let overdue : ℝ :=
        if ((learnerState.state.scheduledDays : ℤ) : ℝ) > 0 then
          daysSinceReview / ((learnerState.state.scheduledDays : ℤ) : ℝ)
        else 0
       let recencyPenalty : ℝ :=
        if overdue > 1 then min ((overdue - 1) * 0.1) 0.2 else 0
       max 0 (min 1 (retention + activityBonus - recencyPenalty)))) ∧
    0 ≤ calculateMastery now learnerState ∧
    calculateMastery now learnerState ≤ 1 := by
  have hpos : (0 : ℝ) < ((learnerState.state.stability : ℚ) : ℝ) :=
    lt_of_lt_of_le (by norm_num) h
  refine ⟨?_, ?_, ?_⟩
  · simp only [calculateMastery, gt_iff_lt, if_pos hpos]
  · simp only [calculateMastery]
    exact le_max_left 0 _
  · simp only [calculateMastery]
    exact max_le (by norm_num) (min_le_left 1 _)

/-- Witness for C8 at the concrete learner state, one day after review. -/
theorem c8_mastery_clamped_witness :
    (0.1 : ℝ) ≤ ((exampleLearner.state.stability : ℚ) : ℝ) ∧
    (0 ≤ calculateMastery 86400000 exampleLearner ∧
      calculateMastery 86400000 exampleLearner ≤ 1) := by
  have hs : (0.1 : ℝ) ≤ ((exampleLearner.state.stability : ℚ) : ℝ) := by
    norm_num [exampleLearner, reviewState]
  exact ⟨hs, (c8_mastery_clamped 86400000 exampleLearner hs).2⟩

/-- Claim C4: the mastery resolver tries the exact objective id, then the
nodeId alternate, then the kubitId alternate, first hit wins; with no
match the objective progress is the zero-state fact with satisfied decided
by 0 against the effective mastery score; with a match the record supplies
mastery, the stored satisfied flag and attempts; and the effective mastery
score is the objective override, else the unit override, else the global
default 0.8. -/
theorem c4_objective_resolution (states : List (String × CMI5ObjectiveState))
    (objective : CMI5Objective) (ms : ℚ) (ctx : EvalContext) (d : AUDescriptor)
    (hdef : ctx.options.defaultMasteryScore = DEFAULT_MASTERY_SCORE) :
    (resolveObjectiveState objective none ms = none) ∧
    (∀ s, mapGet states objective.id = some s →
      resolveObjectiveState objective (some states) ms = some s) ∧
    (mapGet states objective.id = none → ∀ n, objective.nodeId = some n →
      ∀ s, mapGet states n = some s →
      resolveObjectiveState objective (some states) ms = some s) ∧
    (mapGet states objective.id = none →
      objective.nodeId.bind (fun n => mapGet states n) = none →
      ∀ k, objective.kubitId = some k → ∀ s, mapGet states k = some s →
      resolveObjectiveState objective (some states) ms = some s) ∧
    (mapGet states objective.id = none →
      objective.nodeId.bind (fun n => mapGet states n) = none →
      objective.kubitId.bind (fun k => mapGet states k) = none →
      resolveObjectiveState objective (some states) ms = none) ∧
    ((objectiveProgressOf ctx d objective).masteryScore =
      objective.masteryScore.getD (d.masteryScore.getD DEFAULT_MASTERY_SCORE)) ∧
    (resolveObjectiveState objective ctx.objectiveStates
        (objective.masteryScore.getD (d.masteryScore.getD ctx.options.defaultMasteryScore)) =
        none →
      (objectiveProgressOf ctx d objective).mastery = 0 ∧
      (objectiveProgressOf ctx d objective).attempts = 0 ∧
      (objectiveProgressOf ctx d objective).source = ObjectiveSource.none ∧
      (objectiveProgressOf ctx d objective).satisfied =
        decide ((0 : ℚ) ≥
          objective.masteryScore.getD (d.masteryScore.getD ctx.options.defaultMasteryScore))) ∧
    (∀ s, resolveObjectiveState objective ctx.objectiveStates
        (objective.masteryScore.getD (d.masteryScore.getD ctx.options.defaultMasteryScore)) =
        some s →
      (objectiveProgressOf ctx d objective).mastery = s.mastery ∧
      (objectiveProgressOf ctx d objective).satisfied = s.satisfied ∧
      (objectiveProgressOf ctx d objective).attempts = s.attempts ∧
      (objectiveProgressOf ctx d objective).source = ObjectiveSource.cmi5) := by
  refine ⟨rfl, ?_, ?_, ?_, ?_, ?_, ?_, ?_⟩
  · intro s hs
    simp [resolveObjectiveState, hs]
  · intro h0 n hn s hs
    simp [resolveObjectiveState, h0, hn, hs]
  · intro h0 hn k hk s hs
    simp [resolveObjectiveState, h0, hn, hk, hs]
  · intro h0 hn hk
    simp [resolveObjectiveState, h0, hn, hk]
  · simp [objectiveProgressOf, hdef]
  · intro hres
    simp [objectiveProgressOf, hres]
  · intro s hres
    simp [objectiveProgressOf, hres]

/-- Witness for C4: the record stored under the nodeId alternate key is
found after the exact id misses, and it supplies the satisfied flag. -/
theorem c4_objective_resolution_witness :
    (resolveObjectiveState c4Objective (some c4States) DEFAULT_MASTERY_SCORE =
      some (masteredRecord "n1")) ∧
    (objectiveProgressOf c4Ctx c4Descriptor c4Objective).satisfied =
      (masteredRecord "n1").satisfied := by
  have h := c4_objective_resolution c4States c4Objective DEFAULT_MASTERY_SCORE
    c4Ctx c4Descriptor rfl
  refine ⟨h.2.2.1 rfl "n1" rfl (masteredRecord "n1") rfl, ?_⟩
  exact (h.2.2.2.2.2.2.2 (masteredRecord "n1") rfl).2.1

/-- A unit whose prerequisites are met never derives the locked status. -/
theorem deriveStatus_ne_locked (evaluation : AUEvaluation) :
    deriveStatus true evaluation ≠ LessonStatus.locked := by
  unfold deriveStatus
  cases evaluation.moveOn.criteria <;> simp <;> split_ifs <;> simp

/-- The derived status is locked exactly when the unmet list is nonempty. -/
theorem deriveStatus_locked_iff (unmetIds : List String) (evaluation : AUEvaluation) :
    deriveStatus unmetIds.isEmpty evaluation = LessonStatus.locked ↔ unmetIds ≠ [] := by
  cases unmetIds with
  | nil => simpa using deriveStatus_ne_locked evaluation
  | cons a l => simp [deriveStatus]

/-- Pass 2 rewrites only the status and the prerequisite facts. -/
theorem evalAUPass2_facts (options : ResolvedOptions)
    (auEvaluations : List (String × AUEvaluation)) (d : AUDescriptor)
    (evaluation : AUEvaluation) :
    (evalAUPass2 options auEvaluations d evaluation).status =
      deriveStatus (computePrereqLists options auEvaluations d.prerequisites).1.isEmpty
        evaluation ∧
    (evalAUPass2 options auEvaluations d evaluation).prerequisites.unmetIds =
      (computePrereqLists options auEvaluations d.prerequisites).1 ∧
    (evalAUPass2 options auEvaluations d evaluation).completion = evaluation.completion ∧
    (evalAUPass2 options auEvaluations d evaluation).auId = evaluation.auId :=
  ⟨rfl, rfl, rfl, rfl⟩

/-- A unit in the external completed list is complete after pass 1. -/
theorem evalAUPass1_complete_of_completed (ctx : EvalContext) (d : AUDescriptor)
    (h : d.id ∈ ctx.completedAUs) :
    (evalAUPass1 ctx d).completion.isComplete = true := by
  have hc : ctx.completedAUs.contains d.id = true := by
    simpa using h
  simp only [evalAUPass1, hc, if_true]

/-- Claim C1: in every evaluation snapshot a unit has status locked iff
its computed unmet-prerequisite list is nonempty under the configured
policy and missing-prerequisite behavior; and a unit listed in the
external completed-units list always has completion.isComplete true,
while the locked-iff-unmet equivalence still applies to it. -/
theorem c1_locked_iff_unmet (course : CMI5Course)
    (options : CMI5LearningEngineOptions) (progress : CMI5LearningEngineProgress) :
    ∀ e ∈ (evaluate course options progress).aus,
      ((e.2.status = LessonStatus.locked ↔ e.2.prerequisites.unmetIds ≠ []) ∧
        (e.2.auId ∈ completedLessonsOf progress → e.2.completion.isComplete = true)) := by
  intro e he
  have he2 : e ∈ evaluateAUs course options progress := he
  simp only [evaluateAUs, List.mem_map] at he2
  obtain ⟨p, hp, rfl⟩ := he2
  dsimp only
  constructor
  · rw [(evalAUPass2_facts _ _ _ _).1, (evalAUPass2_facts _ _ _ _).2.1]
    exact deriveStatus_locked_iff _ _
  · intro hm
    rw [(evalAUPass2_facts _ _ _ _).2.2.1]
    apply evalAUPass1_complete_of_completed
    exact hm

/-- Witness for C1 at the first unit of the gate course. -/
theorem c1_locked_iff_unmet_witness :
    (((gateEval.aus.get ⟨0, by decide⟩).2.status = LessonStatus.locked ↔
        (gateEval.aus.get ⟨0, by decide⟩).2.prerequisites.unmetIds ≠ []) ∧
      ((gateEval.aus.get ⟨0, by decide⟩).2.auId ∈ completedLessonsOf gateProgress →
        (gateEval.aus.get ⟨0, by decide⟩).2.completion.isComplete = true)) :=
  c1_locked_iff_unmet gateCourse defaultOptions gateProgress _ (List.get_mem _ _ _)

unseal Rat.add Rat.mul Rat.sub Rat.inv Rat.ofScientific in
/-- Claim C2: on the three-unit chain course evaluated with default
options, an empty progress snapshot gives A available, B and C locked, and
course status available; after both objectives of A reach mastery 0.9 with
satisfied set, A is passed, B available, C locked, and the course is
in-progress. -/
theorem c2_chain_scenario :
    statusOf (evaluate chainCourse defaultOptions emptyProgress) "A" = some .available ∧
    statusOf (evaluate chainCourse defaultOptions emptyProgress) "B" = some .locked ∧
    statusOf (evaluate chainCourse defaultOptions emptyProgress) "C" = some .locked ∧
    (evaluate chainCourse defaultOptions emptyProgress).course.status = .available ∧
    statusOf (evaluate chainCourse defaultOptions chainProgressA) "A" = some .passed ∧
    statusOf (evaluate chainCourse defaultOptions chainProgressA) "B" = some .available ∧
    statusOf (evaluate chainCourse defaultOptions chainProgressA) "C" = some .locked ∧
    (evaluate chainCourse defaultOptions chainProgressA).course.status = .inProgress := by
  decide

/-- Claim C7: evaluation is a pure function of the course, the options and
the progress snapshot; the embedding of evaluate takes no clock or other
hidden input, so identical inputs give identical snapshots. -/
theorem c7_evaluate_deterministic (course : CMI5Course)
    (options : CMI5LearningEngineOptions) (p q : CMI5LearningEngineProgress)
    (h : p = q) : evaluate course options p = evaluate course options q := by
  rw [h]

/-- Witness for C7 at the chain course with the empty snapshot. -/
theorem c7_evaluate_deterministic_witness :
    evaluate chainCourse defaultOptions emptyProgress =
      evaluate chainCourse defaultOptions emptyProgress :=
  c7_evaluate_deterministic chainCourse defaultOptions emptyProgress emptyProgress rfl

/-- Claim C10: a course with an empty assignable-unit list still evaluates,
with an empty per-unit map, and the aggregate course status is locked. -/
theorem c10_empty_course_locked (course : CMI5Course)
    (options : CMI5LearningEngineOptions) (progress : CMI5LearningEngineProgress)
    (h : course.assignableUnits = []) :
    (evaluate course options progress).aus = [] ∧
    (evaluate course options progress).course.status = .locked := by
  simp [evaluate, evaluateAUs, buildCourseIndex, h, sortByOrder, aggregateStatus,
    List.insertionSort]

/-- Witness for C10 at a concrete empty course. -/
theorem c10_empty_course_locked_witness :
    emptyCourse.assignableUnits = [] ∧
    ((evaluate emptyCourse defaultOptions emptyProgress).aus = [] ∧
      (evaluate emptyCourse defaultOptions emptyProgress).course.status = .locked) :=
  ⟨rfl, c10_empty_course_locked emptyCourse defaultOptions emptyProgress rfl⟩

end Cmi5
